import Mathlib

/-!
Verification development for the Fire Weather Dashboard fire-behavior and
fuel-moisture calculators.  JavaScript numbers are modelled as real numbers,
thrown JavaScript errors as the error branch of an Except value, and JavaScript
objects with optionally-present fields as structures with Option fields
(a missing field and an explicit null are both modelled as none).
-/

namespace FireWeather

/-- JS Math.round: rounds half toward positive infinity. -/
noncomputable def jsRound (x : ℝ) : ℝ := ((⌊x + 1/2⌋ : ℤ) : ℝ)

/-- JS Math.round(x * 10) / 10 (rounding to one decimal place). -/
noncomputable def round1 (x : ℝ) : ℝ := jsRound (x * 10) / 10

/-- JS Math.round(x * 100) / 100 (rounding to two decimal places). -/
noncomputable def round2 (x : ℝ) : ℝ := jsRound (x * 100) / 100

namespace FuelMoistureIntegration

/-- computeEMC from fuel-moisture-integration.js.  The typeof guard of the
source cannot fire on real-number inputs; the humidity range guard throws,
modelled as the error branch.  The piecewise formula and the final clamp into
[0.1, 40] are transcribed verbatim. -/
noncomputable def computeEMC (tempF rh : ℝ) : Except String ℝ :=
  if rh < 0 ∨ rh > 100 then
    .error "Relative humidity must be between 0 and 100"
  else
    let emc :=
      if rh ≤ 10 then
        max 0.1 (0.03 + 0.2626 * rh - 0.00104 * rh * tempF)
      else if rh ≤ 50 then
        1.5 + 0.15 * rh - 0.01 * tempF / 10
      else
        6 + 0.25 * (rh - 50) + 0.02 * (100 - tempF) / 10
    .ok (max 0.1 (min 40 emc))

/-- stepMoisture from fuel-moisture-integration.js.  The typeof guard of the
source cannot fire on real-number inputs, and the source performs no check on
timeLag, so the function is total on numbers:
k = hours / timeLag, new = emc + (current - emc) * exp(-k), clamped at 0. -/
noncomputable def stepMoisture (currentMoisture emc hours timeLag : ℝ) : ℝ :=
  let k := hours / timeLag
  let newMoisture := emc + (currentMoisture - emc) * Real.exp (-k)
  max 0 newMoisture

/-- A weather step object {tempF, rh, hours}; a field holds none when the
property is missing or non-numeric on the JS side. -/
structure WeatherStep where
  tempF : Option ℝ
  rh : Option ℝ
  hours : Option ℝ

/-- One entry of the result array of runModel.  The initial entry carries no
tempF/rh properties and a null emc, modelled as none. -/
structure MoistureEntry where
  hours : ℝ
  moisture : ℝ
  emc : Option ℝ
  tempF : Option ℝ
  rh : Option ℝ

/-- The loop body of runModel from fuel-moisture-integration.js, threading the
currentMoisture and cumulativeHours variables; errors propagate as in JS
exception propagation. -/
noncomputable def runModelSteps (timeLag currentMoisture cumulativeHours : ℝ) :
    List WeatherStep → Except String (List MoistureEntry)
  | [] => .ok []
  | step :: rest =>
    match step.tempF, step.rh, step.hours with
    | some tempF, some rh, some hours =>
      match computeEMC tempF rh with
      | .error e => .error e
      | .ok emc =>
        let m := stepMoisture currentMoisture emc hours timeLag
        let cum := cumulativeHours + hours
        match runModelSteps timeLag m cum rest with
        | .error e => .error e
        | .ok tail =>
          .ok ({ hours := cum, moisture := round1 m, emc := some (round1 emc),
                 tempF := some tempF, rh := some rh } :: tail)
    | _, _, _ => .error "Invalid weather step: must contain tempF, rh, and hours"

/-- runModel from fuel-moisture-integration.js.  The steps argument is a typed
list, so the JS non-array guard cannot fire in this embedding. -/
noncomputable def runModel (initialMoisture : ℝ) (weatherSteps : List WeatherStep)
    (timeLag : ℝ := 1) : Except String (List MoistureEntry) :=
  match runModelSteps timeLag initialMoisture 0 weatherSteps with
  | .error e => .error e
  | .ok tail =>
    .ok ({ hours := 0, moisture := initialMoisture, emc := none,
           tempF := none, rh := none } :: tail)

/-- The currentMoisture variable of the calculateDryingPattern loop after n
iterations: repeated application of stepMoisture with a fixed EMC target,
interval and time lag. -/
noncomputable def moistureIter (emc intervalHours timeLag initialMoisture : ℝ) : ℕ → ℝ
  | 0 => initialMoisture
  | n + 1 => stepMoisture (moistureIter emc intervalHours timeLag initialMoisture n)
      emc intervalHours timeLag

/-- One sample {hours, moisture} of a drying pattern. -/
structure DryStep where
  hours : ℝ
  moisture : ℝ

/-- The drying pattern aggregate of calculateDryingPattern.  The description
string (pure presentation of the numbers already present) is not modelled. -/
structure DryingPattern where
  emc : ℝ
  timeLag : ℝ
  steps : List DryStep
  finalMoisture : ℝ

/-- calculateDryingPattern from fuel-moisture-integration.js.  The JS for-loop
runs for hour = intervalHours, 2*intervalHours, ... while hour <= duration;
in exact real arithmetic that is ⌊duration / intervalHours⌋ iterations, with
the k-th sample taken at hour k * intervalHours and moisture given by the k-th
moisture iterate.  finalMoisture reads the last element of steps; the list is
non-empty by construction, so the getLastD default is never used. -/
noncomputable def calculateDryingPattern (initialMoisture tempF rh duration : ℝ)
    (timeLag : ℝ := 1) : Except String DryingPattern :=
  match computeEMC tempF rh with
  | .error e => .error e
  | .ok emc =>
    let intervalHours := max 1 (duration / 24)
    let sampleCount := (⌊duration / intervalHours⌋).toNat
    let steps : List DryStep :=
      { hours := 0, moisture := initialMoisture } ::
        (List.range sampleCount).map (fun k =>
          { hours := round1 (((k + 1 : ℕ) : ℝ) * intervalHours),
            moisture := round1
              (moistureIter emc intervalHours timeLag initialMoisture (k + 1)) })
    .ok { emc := round1 emc, timeLag := timeLag, steps := steps,
          finalMoisture :=
            (steps.getLastD { hours := 0, moisture := initialMoisture }).moisture }

/-- A weather step object is well formed when all three properties are
present numbers and the humidity lies in the valid range [0,100]. -/
def WFStep (s : WeatherStep) : Prop :=
  (∃ t, s.tempF = some t) ∧ (∃ r, s.rh = some r ∧ 0 ≤ r ∧ r ≤ 100) ∧
  (∃ h, s.hours = some h)

/-- The hours property of a weather step (0 when absent). -/
noncomputable def stepHours (s : WeatherStep) : ℝ := s.hours.getD 0

/-- A real number that is a whole number of tenths, i.e. rounded to one
decimal place. -/
def isTenth (x : ℝ) : Prop := ∃ k : ℤ, x = (k : ℝ) / 10

end FuelMoistureIntegration

namespace FuelMoistureCalc

/-- stepMoisture from the bundled fuel-moisture-calculator library source.
Unlike the integration module, this version throws when the timelag is not
positive.  toFixed(2) followed by parseFloat rounds the result to two decimal
places (the exact IEEE tie behaviour of toFixed is immaterial to the claims,
which only concern the error branch). -/
noncomputable def stepMoisture (currentMoisture emc hours timelag : ℝ) : Except String ℝ :=
  if timelag ≤ 0 then
    .error "Timelag must be greater than 0"
  else
    let k := 1 / timelag
    let difference := currentMoisture - emc
    .ok (round2 (emc + difference * Real.exp (-(k * hours))))

end FuelMoistureCalc

namespace FireBehavior

/-- One entry of the FUEL_MODELS table of fire-behavior.js. -/
structure FuelModel where
  name : String
  load : ℝ
  savRatio : ℝ
  depth : ℝ
  moistureExt : ℝ
  heatContent : ℝ

/-- The FUEL_MODELS table of fire-behavior.js, keyed by fuel-model identifier;
none models an absent key. -/
def FUEL_MODELS : String → Option FuelModel
  | "1" => some { name := "Short Grass (1 ft)", load := 0.74, savRatio := 3500,
                  depth := 1.0, moistureExt := 12, heatContent := 8000 }
  | "2" => some { name := "Timber Grass/Understory (1 ft)", load := 2.0, savRatio := 3000,
                  depth := 1.0, moistureExt := 15, heatContent := 8000 }
  | "3" => some { name := "Tall Grass (2.5 ft)", load := 3.01, savRatio := 1500,
                  depth := 2.5, moistureExt := 25, heatContent := 8000 }
  | "4" => some { name := "Chaparral (6 ft)", load := 5.01, savRatio := 2000,
                  depth := 6.0, moistureExt := 20, heatContent := 8000 }
  | "5" => some { name := "Brush (2 ft)", load := 1.0, savRatio := 2000,
                  depth := 2.0, moistureExt := 20, heatContent := 8000 }
  | "6" => some { name := "Dormant Brush/Hardwood Slash", load := 1.5, savRatio := 1750,
                  depth := 2.5, moistureExt := 25, heatContent := 8000 }
  | "7" => some { name := "Southern Rough", load := 1.13, savRatio := 1550,
                  depth := 2.5, moistureExt := 40, heatContent := 8000 }
  | "8" => some { name := "Closed Timber Litter", load := 1.5, savRatio := 2000,
                  depth := 0.2, moistureExt := 30, heatContent := 8000 }
  | "9" => some { name := "Hardwood Litter", load := 2.92, savRatio := 2500,
                  depth := 0.2, moistureExt := 25, heatContent := 8000 }
  | "10" => some { name := "Timber Litter/Understory", load := 3.01, savRatio := 2000,
                   depth := 1.0, moistureExt := 25, heatContent := 8000 }
  | _ => none

/-- Result object of calculateRateOfSpread.  The no-spread branch of the
source returns an object without the rosFtPerMin and reactionIntensity
properties, modelled as none. -/
structure SpreadResult where
  ros : ℝ
  rosMetric : ℝ
  rosFtPerMin : Option ℝ
  canSpread : Bool
  reactionIntensity : Option ℝ

/-- calculateRateOfSpread from fire-behavior.js.  An unknown fuel model throws
(error branch).  JS Math.pow with exponents 2 and 3 is the ring power; with
fractional exponents 0.5, -0.5 and -0.3 it is the real power (all applied to
positive table constants in the source). -/
noncomputable def calculateRateOfSpread (windSpeed fuelMoisture slope : ℝ)
    (fuelModel : String := "2") : Except String SpreadResult :=
  match FUEL_MODELS fuelModel with
  | none => .error "Invalid fuel model"
  | some fuel =>
    if fuelMoisture ≥ fuel.moistureExt then
      .ok { ros := 0, rosMetric := 0, rosFtPerMin := none, canSpread := false,
            reactionIntensity := none }
    else
      let moistureDamping := 1 - 2.59 * (fuelMoisture / fuel.moistureExt) +
        5.11 * (fuelMoisture / fuel.moistureExt) ^ 2 -
        3.52 * (fuelMoisture / fuel.moistureExt) ^ 3
      let reactionIntensity := fuel.load * fuel.heatContent * moistureDamping / 60
      let sigma := fuel.savRatio
      let propagatingFlux :=
        Real.exp ((0.792 + 0.681 * Real.sqrt sigma) * (0.1 + fuel.depth))
      let windCoeff := if windSpeed > 0 then
          Real.rpow windSpeed 0.5 * Real.rpow sigma (-0.5) * 0.4
        else 0
      let slopePercent := Real.tan (slope * Real.pi / 180) * 100
      let slopeCoeff := if slopePercent > 0 then
          5.275 * Real.rpow sigma (-0.3) * (slopePercent / 100) ^ 2
        else 0
      let rosBase := reactionIntensity * propagatingFlux / (fuel.load * 0.01)
      let rosFtPerMin := rosBase * (1 + windCoeff + slopeCoeff)
      let rosChainsPerHour := rosFtPerMin * 60 / 66
      let rosMetersPerMin := rosFtPerMin * 0.3048
      .ok { ros := rosChainsPerHour, rosMetric := rosMetersPerMin,
            rosFtPerMin := some rosFtPerMin, canSpread := true,
            reactionIntensity := some reactionIntensity }

/-- Result object of calculateFlameLength. -/
structure FlameLengthResult where
  flameLengthFt : ℝ
  flameLengthM : ℝ

/-- calculateFlameLength from fire-behavior.js (Byram's relation). -/
noncomputable def calculateFlameLength (intensity : ℝ) : FlameLengthResult :=
  let flameLengthFt := 0.45 * Real.rpow intensity 0.46
  { flameLengthFt := flameLengthFt, flameLengthM := flameLengthFt * 0.3048 }

/-- calculateFirelineIntensity from fire-behavior.js. -/
noncomputable def calculateFirelineIntensity (ros fuelLoad : ℝ)
    (heatContent : ℝ := 8000) : ℝ :=
  let fuelLoadLbPerFt2 := fuelLoad * 2000 / 43560
  heatContent * fuelLoadLbPerFt2 * ros / 60

/-- The params object of predictFireBehavior with the destructuring defaults
of the source. -/
structure FireParams where
  windSpeed : ℝ := 0
  fuelMoisture : ℝ := 10
  slope : ℝ := 0
  fuelModel : String := "2"
  temp : ℝ := 70
  rh : ℝ := 30
  useEMC : Bool := false

/-- The rateOfSpread sub-object of the predictFireBehavior result. -/
structure RateOfSpreadOut where
  chainsPerHour : ℝ
  metersPerMin : ℝ
  feetPerMin : ℝ

/-- The flameLength sub-object of the predictFireBehavior result. -/
structure FlameLengthOut where
  feet : ℝ
  meters : ℝ

/-- The conditions sub-object of the predictFireBehavior result. -/
structure ConditionsOut where
  windSpeed : ℝ
  fuelMoisture : ℝ
  slope : ℝ
  temp : ℝ
  rh : ℝ

/-- The result object of predictFireBehavior; fields absent from a given
return object of the source (or explicitly null, for emc) are none. -/
structure FireBehaviorResult where
  error : Option String := none
  canSpread : Option Bool := none
  message : Option String := none
  fuelModel : Option String := none
  rateOfSpread : Option RateOfSpreadOut := none
  flameLength : Option FlameLengthOut := none
  firelineIntensity : Option ℝ := none
  conditions : Option ConditionsOut := none
  emc : Option ℝ := none

/-- The EMC block of predictFireBehavior: JS tests useEMC && temp && rh, a
truthiness test, so a zero temperature or zero humidity skips the block; the
fuel-moisture integration module is taken as available (the Node.js path of
the source).  Returns the pair (calculatedEMC, effectiveMoisture). -/
noncomputable def effectiveMoistureCalc (p : FireParams) :
    Except String (Option ℝ × ℝ) :=
  if p.useEMC ∧ p.temp ≠ 0 ∧ p.rh ≠ 0 then
    match FuelMoistureIntegration.computeEMC p.temp p.rh with
    | .error e => .error e
    | .ok e => .ok (some e, e)
  else
    .ok (none, p.fuelMoisture)

/-- predictFireBehavior from fire-behavior.js.  An unknown fuel model returns
a structured error object; errors thrown by computeEMC propagate (error
branch).  In the spread branch the source reads spreadResult.rosFtPerMin,
which is always present when canSpread is true; getD supplies the unreachable
default. -/
noncomputable def predictFireBehavior (p : FireParams) :
    Except String FireBehaviorResult :=
  match FUEL_MODELS p.fuelModel with
  | none => .ok { error := some "Invalid fuel model" }
  | some fuel =>
    match effectiveMoistureCalc p with
    | .error e => .error e
    | .ok (calculatedEMC, effectiveMoisture) =>
      match calculateRateOfSpread p.windSpeed effectiveMoisture p.slope p.fuelModel with
      | .error e => .error e
      | .ok spreadResult =>
        if spreadResult.canSpread then
          let rosFt := spreadResult.rosFtPerMin.getD 0
          let intensity := calculateFirelineIntensity rosFt fuel.load fuel.heatContent
          let flameResult := calculateFlameLength intensity
          .ok { canSpread := some true,
                fuelModel := some fuel.name,
                rateOfSpread := some
                  { chainsPerHour := round2 spreadResult.ros,
                    metersPerMin := round2 spreadResult.rosMetric,
                    feetPerMin := round2 rosFt },
                flameLength := some
                  { feet := round1 flameResult.flameLengthFt,
                    meters := round1 flameResult.flameLengthM },
                firelineIntensity := some (jsRound intensity),
                conditions := some
                  { windSpeed := p.windSpeed, fuelMoisture := effectiveMoisture,
                    slope := p.slope, temp := p.temp, rh := p.rh },
                emc := calculatedEMC.map round1 }
        else
          .ok { canSpread := some false,
                message := some "Fuel moisture exceeds extinction moisture. Fire will not spread.",
                fuelModel := some fuel.name,
                emc := calculatedEMC }

end FireBehavior

/-! Helper lemmas shared by the theorems below. -/

lemma computeEMC_ok_bounds (tempF rh : ℝ) (h0 : 0 ≤ rh) (h1 : rh ≤ 100) :
    ∃ v, FuelMoistureIntegration.computeEMC tempF rh = .ok v ∧ 0.1 ≤ v ∧ v ≤ 40 := by
  unfold FuelMoistureIntegration.computeEMC
  rw [if_neg (by push_neg; exact ⟨not_lt.mp (not_lt.mpr h0), h1⟩)]
  exact ⟨_, rfl, le_max_left _ _, max_le (by norm_num) (min_le_left _ _)⟩

lemma computeEMC_85_25 :
    FuelMoistureIntegration.computeEMC 85 25 = .ok 5.165 := by
  unfold FuelMoistureIntegration.computeEMC
  rw [if_neg (by norm_num), if_neg (by norm_num : ¬((25:ℝ) ≤ 10)),
    if_pos (by norm_num : (25:ℝ) ≤ 50)]
  norm_num [min_def, max_def]

/-- C2: for every real tempF and every rh in [0,100], computeEMC returns a
value in the closed interval [0.1, 40]. -/
theorem computeEMC_bounded (tempF rh : ℝ) (h0 : 0 ≤ rh) (h1 : rh ≤ 100) :
    ∃ v, FuelMoistureIntegration.computeEMC tempF rh = .ok v ∧
      0.1 ≤ v ∧ v ≤ 40 :=
  computeEMC_ok_bounds tempF rh h0 h1

/-- Witness for C2 at tempF = 85, rh = 25. -/
theorem computeEMC_bounded_witness :
    ∃ v, FuelMoistureIntegration.computeEMC 85 25 = .ok v ∧
      0.1 ≤ v ∧ v ≤ 40 :=
  computeEMC_bounded 85 25 (by norm_num) (by norm_num)

/-- C3: for a positive time lag, stepMoisture returns the non-negative clamp
of the first-order exponential relaxation toward the equilibrium value. -/
theorem stepMoisture_formula (cur emc hrs tl : ℝ) (h : 0 < tl) :
    FuelMoistureIntegration.stepMoisture cur emc hrs tl =
      max 0 (emc + (cur - emc) * Real.exp (-(hrs / tl))) := rfl

/-- Witness for C3 at (10, 5, 1, 2). -/
theorem stepMoisture_formula_witness :
    FuelMoistureIntegration.stepMoisture 10 5 1 2 =
      max 0 (5 + (10 - 5) * Real.exp (-((1:ℝ) / 2))) :=
  stepMoisture_formula 10 5 1 2 (by norm_num)

/-- C4: computeEMC throws exactly "Relative humidity must be between 0 and
100" when rh is outside [0,100], and raises no error when rh lies in
[0,100]. -/
theorem computeEMC_rh_validation (tempF rh : ℝ) :
    ((rh < 0 ∨ rh > 100) →
      FuelMoistureIntegration.computeEMC tempF rh =
        .error "Relative humidity must be between 0 and 100") ∧
    (0 ≤ rh → rh ≤ 100 →
      ∃ v, FuelMoistureIntegration.computeEMC tempF rh = .ok v) := by
  constructor
  · intro h
    unfold FuelMoistureIntegration.computeEMC
    rw [if_pos h]
  · intro h0 h1
    obtain ⟨v, hv, -⟩ := computeEMC_ok_bounds tempF rh h0 h1
    exact ⟨v, hv⟩

/-- Witness for C4 at rh = 150 (error) and rh = 50 (no error). -/
theorem computeEMC_rh_validation_witness :
    FuelMoistureIntegration.computeEMC 70 150 =
      .error "Relative humidity must be between 0 and 100" ∧
    ∃ v, FuelMoistureIntegration.computeEMC 70 50 = .ok v :=
  ⟨(computeEMC_rh_validation 70 150).1 (Or.inr (by norm_num)),
   (computeEMC_rh_validation 70 50).2 (by norm_num) (by norm_num)⟩

/-- C5 counterexample: the integration module's stepMoisture performs no check
on the time lag; at the concrete input (10, 5, 1, -1) with time lag -1 ≤ 0 it
raises no error and returns the numeric result 5 + 5 * exp 1. -/
theorem stepMoisture_no_timelag_check :
    FuelMoistureIntegration.stepMoisture 10 5 1 (-1) = 5 + 5 * Real.exp 1 := by
  show max 0 (5 + (10 - 5) * Real.exp (-((1:ℝ) / (-1)))) = 5 + 5 * Real.exp 1
  have h1 : -((1:ℝ) / (-1)) = 1 := by norm_num
  rw [h1, max_eq_right (by positivity)]
  ring

/-- C5 amended: it is the fuel-moisture-calculator library's stepMoisture
that fails, with the message "Timelag must be greater than 0", whenever the
time lag is not positive; the integration module's stepMoisture performs no
such check and always returns a number. -/
theorem stepMoisture_lib_timelag_error (cur emc hrs tl : ℝ) (h : tl ≤ 0) :
    FuelMoistureCalc.stepMoisture cur emc hrs tl =
      .error "Timelag must be greater than 0" := by
  unfold FuelMoistureCalc.stepMoisture
  rw [if_pos h]

/-- Witness for the amended C5 at time lag 0. -/
theorem stepMoisture_lib_timelag_error_witness :
    FuelMoistureCalc.stepMoisture 10 5 1 0 =
      .error "Timelag must be greater than 0" :=
  stepMoisture_lib_timelag_error 10 5 1 0 le_rfl

/-- C7: for an identifier absent from the fuel table, predictFireBehavior
returns a structured error object without throwing, while the lower-level
calculateRateOfSpread throws a validation error. -/
theorem unknown_fuel_model (id : String)
    (h : FireBehavior.FUEL_MODELS id = none) :
    (∀ p : FireBehavior.FireParams, p.fuelModel = id →
      FireBehavior.predictFireBehavior p =
        .ok { error := some "Invalid fuel model" }) ∧
    (∀ w m s, FireBehavior.calculateRateOfSpread w m s id =
      .error "Invalid fuel model") := by
  constructor
  · intro p hp
    unfold FireBehavior.predictFireBehavior
    rw [hp, h]
  · intro w m s
    unfold FireBehavior.calculateRateOfSpread
    rw [h]

/-- Witness for C7 at the identifier "99". -/
theorem unknown_fuel_model_witness :
    FireBehavior.predictFireBehavior { fuelModel := "99" } =
      .ok { error := some "Invalid fuel model" } ∧
    FireBehavior.calculateRateOfSpread 10 8 0 "99" =
      .error "Invalid fuel model" := by
  have h := unknown_fuel_model "99" rfl
  exact ⟨h.1 { fuelModel := "99" } rfl, h.2 10 8 0⟩

/-- C1: whenever the (effective) fuel moisture reaches the moisture of
extinction of the selected fuel model, calculateRateOfSpread returns
canSpread = false with both returned rate-of-spread unit fields equal to 0,
and predictFireBehavior returns a canSpread = false object carrying no
rate-of-spread, fireline-intensity or flame-length values. -/
theorem extinction_blocks_spread (id : String) (fuel : FireBehavior.FuelModel)
    (hf : FireBehavior.FUEL_MODELS id = some fuel) :
    (∀ w m s, m ≥ fuel.moistureExt →
      FireBehavior.calculateRateOfSpread w m s id =
        .ok { ros := 0, rosMetric := 0, rosFtPerMin := none, canSpread := false,
              reactionIntensity := none }) ∧
    (∀ (p : FireBehavior.FireParams) (emcO : Option ℝ) (eff : ℝ),
      p.fuelModel = id →
      FireBehavior.effectiveMoistureCalc p = .ok (emcO, eff) →
      eff ≥ fuel.moistureExt →
      ∃ r, FireBehavior.predictFireBehavior p = .ok r ∧
        r.canSpread = some false ∧ r.rateOfSpread = none ∧
        r.firelineIntensity = none ∧ r.flameLength = none) := by
  have hcrs : ∀ w m s, m ≥ fuel.moistureExt →
      FireBehavior.calculateRateOfSpread w m s id =
        .ok { ros := 0, rosMetric := 0, rosFtPerMin := none, canSpread := false,
              reactionIntensity := none } := by
    intro w m s hm
    unfold FireBehavior.calculateRateOfSpread
    simp only [hf]
    rw [if_pos hm]
  refine ⟨hcrs, ?_⟩
  intro p emcO eff hp he hm
  unfold FireBehavior.predictFireBehavior
  simp only [hp, hf, he, hcrs p.windSpeed eff p.slope hm]
  exact ⟨_, rfl, rfl, rfl, rfl, rfl⟩

/-- Witness for C1: fuel model "2" (extinction moisture 15) at fuel moisture
30. -/
theorem extinction_blocks_spread_witness :
    FireBehavior.calculateRateOfSpread 10 30 0 "2" =
      .ok { ros := 0, rosMetric := 0, rosFtPerMin := none, canSpread := false,
            reactionIntensity := none } ∧
    ∃ r, FireBehavior.predictFireBehavior { fuelMoisture := 30 } = .ok r ∧
      r.canSpread = some false ∧ r.rateOfSpread = none ∧
      r.firelineIntensity = none ∧ r.flameLength = none := by
  have h := extinction_blocks_spread "2" _ rfl
  have heff : FireBehavior.effectiveMoistureCalc { fuelMoisture := 30 } =
      .ok (none, 30) := by
    unfold FireBehavior.effectiveMoistureCalc
    rw [if_neg (by simp)]
  exact ⟨h.1 10 30 0 (by norm_num), h.2 { fuelMoisture := 30 } none 30 rfl heff
    (by norm_num)⟩

/-- C10 amended: with useEMC = true but temp = 0 or rh = 0, the truthiness
guard skips the EMC branch: the call behaves exactly like a useEMC = false
call, the result carries no emc value, and the manually supplied fuelMoisture
is the effective moisture echoed in the conditions.  (An absent temp or rh
instead takes the truthy destructuring default 70 or 30, so the EMC branch
runs in that case — see the counterexample below.) -/
theorem emc_guard_truthiness (p : FireBehavior.FireParams)
    (hz : p.temp = 0 ∨ p.rh = 0) :
    FireBehavior.predictFireBehavior p =
      FireBehavior.predictFireBehavior { p with useEMC := false } ∧
    ∀ r, FireBehavior.predictFireBehavior p = .ok r → r.emc = none ∧
      ∀ c, r.conditions = some c → c.fuelMoisture = p.fuelMoisture := by
  have heff : FireBehavior.effectiveMoistureCalc p = .ok (none, p.fuelMoisture) := by
    unfold FireBehavior.effectiveMoistureCalc
    rw [if_neg]
    rintro ⟨-, ht, hr⟩
    rcases hz with h | h
    exacts [ht h, hr h]
  have heff2 : FireBehavior.effectiveMoistureCalc { p with useEMC := false } =
      .ok (none, p.fuelMoisture) := by
    unfold FireBehavior.effectiveMoistureCalc
    rw [if_neg (by simp)]
  constructor
  · unfold FireBehavior.predictFireBehavior
    simp only [heff, heff2]
  · intro r hr
    unfold FireBehavior.predictFireBehavior at hr
    split at hr
    · rw [Except.ok.injEq] at hr
      subst hr
      exact ⟨rfl, fun c hc => by cases hc⟩
    · rw [heff] at hr
      simp only [] at hr
      split at hr
      · cases hr
      · split at hr
        · rw [Except.ok.injEq] at hr
          subst hr
          refine ⟨rfl, fun c hc => ?_⟩
          rw [Option.some.injEq] at hc
          subst hc
          rfl
        · rw [Except.ok.injEq] at hr
          subst hr
          exact ⟨rfl, fun c hc => by cases hc⟩

/-- Witness for C10: useEMC = true with rh = 0 (all other params default). -/
theorem emc_guard_truthiness_witness :
    FireBehavior.predictFireBehavior { rh := 0, useEMC := true } =
      FireBehavior.predictFireBehavior { rh := 0, useEMC := false } ∧
    ∀ r, FireBehavior.predictFireBehavior { rh := 0, useEMC := true } = .ok r →
      r.emc = none ∧ ∀ c, r.conditions = some c → c.fuelMoisture = 10 := by
  have h := emc_guard_truthiness { rh := 0, useEMC := true } (Or.inr rfl)
  exact h

lemma fuel_model_2_eval :
    FireBehavior.FUEL_MODELS "2" =
      some { name := "Timber Grass/Understory (1 ft)", load := 2.0,
             savRatio := 3000, depth := 1.0, moistureExt := 15,
             heatContent := 8000 } := rfl

lemma crs_2_emc_eval :
    ∃ R, FireBehavior.calculateRateOfSpread 0 5.165 0 "2" = .ok R ∧
      R.canSpread = true := by
  unfold FireBehavior.calculateRateOfSpread
  simp only [fuel_model_2_eval]
  rw [if_neg (by norm_num : ¬((5.165:ℝ) ≥ (15:ℝ)))]
  exact ⟨_, rfl, rfl⟩

/-- C9: predictFireBehavior on fuel model "2" with the manually supplied
moisture equal to the independently computed EMC of (85, 25), and with the
EMC-driven path on the same temperature and humidity, produce chains-per-hour
rates of spread that differ by less than 0.1. -/
theorem emc_manual_consistency :
    ∃ (e : ℝ) (r1 r2 : FireBehavior.FireBehaviorResult)
      (v1 v2 : FireBehavior.RateOfSpreadOut),
      FuelMoistureIntegration.computeEMC 85 25 = .ok e ∧
      FireBehavior.predictFireBehavior
        { fuelModel := "2", fuelMoisture := e, temp := 85, rh := 25,
          useEMC := false } = .ok r1 ∧
      FireBehavior.predictFireBehavior
        { fuelModel := "2", temp := 85, rh := 25, useEMC := true } = .ok r2 ∧
      r1.rateOfSpread = some v1 ∧ r2.rateOfSpread = some v2 ∧
      |v1.chainsPerHour - v2.chainsPerHour| < 0.1 := by
  obtain ⟨R, hR, hcan⟩ := crs_2_emc_eval
  have heff1 : FireBehavior.effectiveMoistureCalc
      { fuelModel := "2", fuelMoisture := 5.165, temp := 85, rh := 25,
        useEMC := false } = .ok (none, 5.165) := by
    unfold FireBehavior.effectiveMoistureCalc
    rw [if_neg (by simp)]
  have heff2 : FireBehavior.effectiveMoistureCalc
      { fuelModel := "2", temp := 85, rh := 25, useEMC := true } =
      .ok (some 5.165, 5.165) := by
    unfold FireBehavior.effectiveMoistureCalc
    rw [if_pos ⟨rfl, by norm_num, by norm_num⟩]
    simp only [computeEMC_85_25]
  obtain ⟨r1, hr1, hros1⟩ : ∃ r1, FireBehavior.predictFireBehavior
      { fuelModel := "2", fuelMoisture := 5.165, temp := 85, rh := 25,
        useEMC := false } = .ok r1 ∧
      r1.rateOfSpread = some
        { chainsPerHour := round2 R.ros, metersPerMin := round2 R.rosMetric,
          feetPerMin := round2 (R.rosFtPerMin.getD 0) } := by
    unfold FireBehavior.predictFireBehavior
    simp only [fuel_model_2_eval, heff1, hR, hcan, if_true]
    exact ⟨_, rfl, rfl⟩
  obtain ⟨r2, hr2, hros2⟩ : ∃ r2, FireBehavior.predictFireBehavior
      { fuelModel := "2", temp := 85, rh := 25, useEMC := true } = .ok r2 ∧
      r2.rateOfSpread = some
        { chainsPerHour := round2 R.ros, metersPerMin := round2 R.rosMetric,
          feetPerMin := round2 (R.rosFtPerMin.getD 0) } := by
    unfold FireBehavior.predictFireBehavior
    simp only [fuel_model_2_eval, heff2, hR, hcan, if_true]
    exact ⟨_, rfl, rfl⟩
  refine ⟨5.165, r1, r2, _, _, computeEMC_85_25, hr1, hr2, hros1, hros2, ?_⟩
  simp only [sub_self, abs_zero]
  norm_num

/-- C10 counterexample: with useEMC = true and temp/rh absent, the
destructuring defaults 70 and 30 apply and are truthy, so the EMC block is
not skipped: the result carries emc = 5.9 (the rounded computeEMC(70,30) =
5.93) and the effective moisture echoed in conditions is 5.93, not the
manual fuelMoisture default 10. -/
theorem emc_guard_absent_counterexample :
    ∃ r c, FireBehavior.predictFireBehavior { useEMC := true } = .ok r ∧
      r.emc = some 5.9 ∧ r.conditions = some c ∧ c.fuelMoisture = 5.93 := by
  have hemc7030 : FuelMoistureIntegration.computeEMC 70 30 = .ok 5.93 := by
    unfold FuelMoistureIntegration.computeEMC
    rw [if_neg (by norm_num), if_neg (by norm_num : ¬((30:ℝ) ≤ 10)),
      if_pos (by norm_num : (30:ℝ) ≤ 50)]
    norm_num [min_def, max_def]
  have hr59 : round1 (5.93:ℝ) = 5.9 := by
    unfold round1 jsRound
    have hfl : ⌊(5.93:ℝ) * 10 + 1/2⌋ = 59 := by
      rw [Int.floor_eq_iff]
      constructor <;> push_cast <;> linarith
    rw [hfl]
    norm_num
  have heff : FireBehavior.effectiveMoistureCalc { useEMC := true } =
      .ok (some 5.93, 5.93) := by
    unfold FireBehavior.effectiveMoistureCalc
    rw [if_pos ⟨rfl, by norm_num, by norm_num⟩]
    simp only [hemc7030]
  obtain ⟨R, hR, hcan⟩ : ∃ R, FireBehavior.calculateRateOfSpread 0 5.93 0 "2" =
      .ok R ∧ R.canSpread = true := by
    unfold FireBehavior.calculateRateOfSpread
    simp only [fuel_model_2_eval]
    rw [if_neg (by norm_num : ¬((5.93:ℝ) ≥ (15:ℝ)))]
    exact ⟨_, rfl, rfl⟩
  unfold FireBehavior.predictFireBehavior
  simp only [fuel_model_2_eval, heff, hR, hcan, if_true]
  refine ⟨_, _, rfl, ?_, rfl, rfl⟩
  show some (round1 (5.93:ℝ)) = some 5.9
  rw [hr59]

lemma round1_isTenth (x : ℝ) : FuelMoistureIntegration.isTenth (round1 x) :=
  ⟨⌊x * 10 + 1/2⌋, rfl⟩

lemma runModelSteps_ok (timeLag : ℝ) :
    ∀ (steps : List FuelMoistureIntegration.WeatherStep) (cur cum : ℝ),
      (∀ s ∈ steps, FuelMoistureIntegration.WFStep s) →
      ∃ res, FuelMoistureIntegration.runModelSteps timeLag cur cum steps = .ok res ∧
        res.length = steps.length ∧
        ∀ i (hi : i < res.length),
          (res.get ⟨i, hi⟩).hours =
            cum + ((steps.take (i+1)).map FuelMoistureIntegration.stepHours).sum ∧
          FuelMoistureIntegration.isTenth (res.get ⟨i, hi⟩).moisture ∧
          ∃ e, (res.get ⟨i, hi⟩).emc = some e ∧
            FuelMoistureIntegration.isTenth e := by
  intro steps
  induction steps with
  | nil =>
    intro cur cum _
    exact ⟨[], rfl, rfl, fun i hi => absurd hi (by simp)⟩
  | cons s rest ih =>
    intro cur cum hwf
    obtain ⟨⟨t, ht⟩, ⟨r, hrh, hr0, hr1⟩, ⟨h, hh⟩⟩ := hwf s (by simp)
    obtain ⟨v, hv, -, -⟩ := computeEMC_ok_bounds t r hr0 hr1
    obtain ⟨tail, htail, hlen, hprop⟩ :=
      ih (FuelMoistureIntegration.stepMoisture cur v h timeLag) (cum + h)
        (fun x hx => hwf x (by simp [hx]))
    refine ⟨{ hours := cum + h,
              moisture := round1 (FuelMoistureIntegration.stepMoisture cur v h timeLag),
              emc := some (round1 v), tempF := some t, rh := some r } :: tail,
            ?_, ?_, ?_⟩
    · simp only [FuelMoistureIntegration.runModelSteps, ht, hrh, hh, hv, htail]
    · simp [hlen]
    · intro i hi
      match i with
      | 0 =>
        refine ⟨?_, round1_isTenth _, ⟨round1 v, rfl, round1_isTenth v⟩⟩
        simp [FuelMoistureIntegration.stepHours, hh]
      | Nat.succ j =>
        have hj : j < tail.length := by
          simpa using Nat.lt_of_succ_lt_succ hi
        obtain ⟨hhours, hmoist, hemc⟩ := hprop j hj
        refine ⟨?_, hmoist, hemc⟩
        show (tail.get ⟨j, hj⟩).hours = _
        rw [hhours]
        simp [FuelMoistureIntegration.stepHours, hh]
        ring

lemma runModelSteps_malformed (timeLag : ℝ) :
    ∀ (pre : List FuelMoistureIntegration.WeatherStep)
      (bad : FuelMoistureIntegration.WeatherStep)
      (rest : List FuelMoistureIntegration.WeatherStep) (cur cum : ℝ),
      (∀ s ∈ pre, FuelMoistureIntegration.WFStep s) →
      (bad.tempF = none ∨ bad.rh = none ∨ bad.hours = none) →
      FuelMoistureIntegration.runModelSteps timeLag cur cum (pre ++ bad :: rest) =
        .error "Invalid weather step: must contain tempF, rh, and hours" := by
  intro pre
  induction pre with
  | nil =>
    intro bad rest cur cum _ hbad
    rcases hb1 : bad.tempF with _ | t <;> rcases hb2 : bad.rh with _ | r <;>
      rcases hb3 : bad.hours with _ | h <;>
      simp only [List.nil_append, FuelMoistureIntegration.runModelSteps,
        hb1, hb2, hb3]
    rw [hb1, hb2, hb3] at hbad
    simp at hbad
  | cons s pre ih =>
    intro bad rest cur cum hwf hbad
    obtain ⟨⟨t, ht⟩, ⟨r, hrh, hr0, hr1⟩, ⟨h, hh⟩⟩ := hwf s (by simp)
    obtain ⟨v, hv, -, -⟩ := computeEMC_ok_bounds t r hr0 hr1
    have hrec := ih bad rest (FuelMoistureIntegration.stepMoisture cur v h timeLag)
      (cum + h) (fun x hx => hwf x (by simp [hx])) hbad
    simp only [List.cons_append, FuelMoistureIntegration.runModelSteps,
      ht, hrh, hh, hv]
    rw [show pre.append (bad :: rest) = pre ++ bad :: rest from rfl, hrec]

/-- C6: on well-formed weather steps runModel returns n+1 entries whose first
entry is {hours: 0, moisture: initialMoisture, emc: null}, whose i-th entry
records the cumulative hours of the first i steps and carries moisture and
EMC values rounded to one decimal place; a step with a missing property makes
runModel fail with the invalid-weather-step error. -/
theorem runModel_spec (initialMoisture timeLag : ℝ) :
    (∀ steps : List FuelMoistureIntegration.WeatherStep,
      (∀ s ∈ steps, FuelMoistureIntegration.WFStep s) →
      ∃ res, FuelMoistureIntegration.runModel initialMoisture steps timeLag = .ok res ∧
        res.length = steps.length + 1 ∧
        res.head? = some { hours := 0, moisture := initialMoisture, emc := none,
                           tempF := none, rh := none } ∧
        ∀ i (hi : i + 1 < res.length),
          (res.get ⟨i + 1, hi⟩).hours =
            ((steps.take (i+1)).map FuelMoistureIntegration.stepHours).sum ∧
          FuelMoistureIntegration.isTenth (res.get ⟨i + 1, hi⟩).moisture ∧
          ∃ e, (res.get ⟨i + 1, hi⟩).emc = some e ∧
            FuelMoistureIntegration.isTenth e) ∧
    (∀ pre bad rest, (∀ s ∈ pre, FuelMoistureIntegration.WFStep s) →
      (bad.tempF = none ∨ bad.rh = none ∨ bad.hours = none) →
      FuelMoistureIntegration.runModel initialMoisture (pre ++ bad :: rest) timeLag =
        .error "Invalid weather step: must contain tempF, rh, and hours") := by
  constructor
  · intro steps hwf
    obtain ⟨res, hres, hlen, hprop⟩ := runModelSteps_ok timeLag steps
      initialMoisture 0 hwf
    refine ⟨_ :: res, ?_, ?_, rfl, ?_⟩
    · simp only [FuelMoistureIntegration.runModel, hres]
    · simp [hlen]
    · intro i hi
      have hi' : i < res.length := by simpa using Nat.lt_of_succ_lt_succ hi
      obtain ⟨hhours, hmoist, hemc⟩ := hprop i hi'
      exact ⟨by simpa using hhours, by simpa using hmoist, by simpa using hemc⟩
  · intro pre bad rest hwf hbad
    have h := runModelSteps_malformed timeLag pre bad rest initialMoisture 0 hwf hbad
    simp only [FuelMoistureIntegration.runModel, h]

/-- Witness for C6: one well-formed step (length 2 result) and one step with
a missing tempF (error). -/
theorem runModel_spec_witness :
    (∃ res, FuelMoistureIntegration.runModel 15
      [{ tempF := some 85, rh := some 25, hours := some 6 }] 1 = .ok res ∧
      res.length = 2) ∧
    FuelMoistureIntegration.runModel 15
      [{ tempF := none, rh := some 25, hours := some 6 }] 1 =
      .error "Invalid weather step: must contain tempF, rh, and hours" := by
  have h := runModel_spec 15 1
  constructor
  · obtain ⟨res, hres, hlen, -⟩ := h.1
      [{ tempF := some 85, rh := some 25, hours := some 6 }]
      (by intro s hs
          simp only [List.mem_singleton] at hs
          subst hs
          exact ⟨⟨85, rfl⟩, ⟨25, rfl, by norm_num, by norm_num⟩, ⟨6, rfl⟩⟩)
    exact ⟨res, hres, by simpa using hlen⟩
  · exact h.2 [] { tempF := none, rh := some 25, hours := some 6 } []
      (by simp) (Or.inl rfl)

lemma computeEMC_ok_ge (tempF rh v : ℝ)
    (h : FuelMoistureIntegration.computeEMC tempF rh = .ok v) : 0.1 ≤ v := by
  unfold FuelMoistureIntegration.computeEMC at h
  split at h
  · cases h
  · rw [Except.ok.injEq] at h
    exact h ▸ le_max_left _ _

lemma stepMoisture_between_of_gt (m emc t tl : ℝ) (hemc : 0 < emc)
    (hm : emc < m) (ht : 0 < t) (htl : 0 < tl) :
    emc < FuelMoistureIntegration.stepMoisture m emc t tl ∧
      FuelMoistureIntegration.stepMoisture m emc t tl < m := by
  have hE0 : 0 < Real.exp (-(t / tl)) := Real.exp_pos _
  have hE1 : Real.exp (-(t / tl)) < 1 := by
    rw [Real.exp_lt_one_iff]
    have : 0 < t / tl := div_pos ht htl
    linarith
  have hs : FuelMoistureIntegration.stepMoisture m emc t tl =
      emc + (m - emc) * Real.exp (-(t / tl)) := by
    show max 0 (emc + (m - emc) * Real.exp (-(t / tl))) = _
    exact max_eq_right (by nlinarith)
  rw [hs]
  constructor <;> nlinarith

lemma stepMoisture_between_of_lt (m emc t tl : ℝ) (hemc : 0 < emc)
    (hm : m < emc) (ht : 0 < t) (htl : 0 < tl) :
    m < FuelMoistureIntegration.stepMoisture m emc t tl ∧
      FuelMoistureIntegration.stepMoisture m emc t tl < emc := by
  have hE0 : 0 < Real.exp (-(t / tl)) := Real.exp_pos _
  have hE1 : Real.exp (-(t / tl)) < 1 := by
    rw [Real.exp_lt_one_iff]
    have : 0 < t / tl := div_pos ht htl
    linarith
  show m < max 0 (emc + (m - emc) * Real.exp (-(t / tl))) ∧
    max 0 (emc + (m - emc) * Real.exp (-(t / tl))) < emc
  constructor
  · exact lt_of_lt_of_le (by nlinarith) (le_max_right 0 _)
  · exact max_lt hemc (by nlinarith)

lemma stepMoisture_at_equilibrium (emc t tl : ℝ) (hemc : 0 ≤ emc) :
    FuelMoistureIntegration.stepMoisture emc emc t tl = emc := by
  show max 0 (emc + (emc - emc) * Real.exp (-(t / tl))) = emc
  rw [sub_self, zero_mul, add_zero]
  exact max_eq_right hemc

/-- C8 amended: the unrounded moisture values threaded through the
calculateDryingPattern loop (the moisture iterates) move strictly
monotonically toward the computed EMC — strictly decreasing when the initial
moisture exceeds the EMC, strictly increasing when below it, constant when
equal; the reported steps round these values to one decimal place, so
consecutive reported values may coincide. -/
theorem dryingPattern_monotone (tempF rh initial duration timeLag emc
    interval : ℝ) (he : FuelMoistureIntegration.computeEMC tempF rh = .ok emc)
    (hi : interval = max 1 (duration / 24)) (htl : 0 < timeLag) :
    (emc < initial → ∀ n,
      FuelMoistureIntegration.moistureIter emc interval timeLag initial (n+1) <
        FuelMoistureIntegration.moistureIter emc interval timeLag initial n) ∧
    (initial < emc → ∀ n,
      FuelMoistureIntegration.moistureIter emc interval timeLag initial n <
        FuelMoistureIntegration.moistureIter emc interval timeLag initial (n+1)) ∧
    (initial = emc → ∀ n,
      FuelMoistureIntegration.moistureIter emc interval timeLag initial n = emc) := by
  have hemc : (0:ℝ) < emc :=
    lt_of_lt_of_le (by norm_num) (computeEMC_ok_ge tempF rh emc he)
  have hint : 0 < interval := by
    rw [hi]
    exact lt_of_lt_of_le one_pos (le_max_left _ _)
  refine ⟨?_, ?_, ?_⟩
  · intro h0
    have key : ∀ n, emc < FuelMoistureIntegration.moistureIter emc interval
        timeLag initial n ∧
        FuelMoistureIntegration.moistureIter emc interval timeLag initial (n+1) <
          FuelMoistureIntegration.moistureIter emc interval timeLag initial n := by
      intro n
      induction n with
      | zero =>
        exact ⟨h0, (stepMoisture_between_of_gt initial emc interval timeLag
          hemc h0 hint htl).2⟩
      | succ n ihn =>
        have h3 : emc < FuelMoistureIntegration.moistureIter emc interval
            timeLag initial (n+1) :=
          (stepMoisture_between_of_gt _ emc interval timeLag hemc ihn.1
            hint htl).1
        exact ⟨h3, (stepMoisture_between_of_gt _ emc interval timeLag hemc h3
          hint htl).2⟩
    exact fun n => (key n).2
  · intro h0
    have key : ∀ n, FuelMoistureIntegration.moistureIter emc interval timeLag
        initial n < emc ∧
        FuelMoistureIntegration.moistureIter emc interval timeLag initial n <
          FuelMoistureIntegration.moistureIter emc interval timeLag initial (n+1) := by
      intro n
      induction n with
      | zero =>
        exact ⟨h0, (stepMoisture_between_of_lt initial emc interval timeLag
          hemc h0 hint htl).1⟩
      | succ n ihn =>
        have h3 : FuelMoistureIntegration.moistureIter emc interval timeLag
            initial (n+1) < emc :=
          (stepMoisture_between_of_lt _ emc interval timeLag hemc ihn.1
            hint htl).2
        exact ⟨h3, (stepMoisture_between_of_lt _ emc interval timeLag hemc h3
          hint htl).1⟩
    exact fun n => (key n).2
  · intro h0 n
    induction n with
    | zero => exact h0
    | succ n ihn =>
      show FuelMoistureIntegration.stepMoisture _ emc interval timeLag = emc
      rw [ihn]
      exact stepMoisture_at_equilibrium emc interval timeLag hemc.le

/-- Witness for the amended C8: one drying step at (85, 25), initial
moisture 20, duration 24, time lag 1, strictly decreases. -/
theorem dryingPattern_monotone_witness :
    FuelMoistureIntegration.moistureIter 5.165 (max 1 ((24:ℝ) / 24)) 1 20 1 <
      FuelMoistureIntegration.moistureIter 5.165 (max 1 ((24:ℝ) / 24)) 1 20 0 := by
  have h := dryingPattern_monotone 85 25 20 24 1 5.165 (max 1 ((24:ℝ) / 24))
    computeEMC_85_25 rfl (by norm_num)
  exact h.1 (by norm_num) 0

lemma round1_eq_twenty (x : ℝ) (h1 : 19.95 ≤ x) (h2 : x < 20.05) :
    round1 x = 20 := by
  unfold round1 jsRound
  have hfl : ⌊x * 10 + 1/2⌋ = 200 := by
    rw [Int.floor_eq_iff]
    constructor <;> push_cast <;> linarith
  rw [hfl]
  norm_num

/-- C8 counterexample: for the valid input (initial 20, tempF 85, rh 25,
duration 2, time lag 1000000) the computed EMC is 5.165 < 20, yet the
reported moisture sequence of the drying pattern is the constant [20, 20, 20]
(the unrounded iterates decrease by less than half a tenth per step and the
reported values are rounded to one decimal place), so the steps sequence is
not strictly decreasing. -/
theorem dryingPattern_rounding_plateau :
    FuelMoistureIntegration.computeEMC 85 25 = .ok 5.165 ∧ (5.165:ℝ) < 20 ∧
    ∃ p, FuelMoistureIntegration.calculateDryingPattern 20 85 25 2 1000000 =
      .ok p ∧
      p.steps.map FuelMoistureIntegration.DryStep.moisture = [20, 20, 20] := by
  have hIH : max (1:ℝ) (2 / 24) = 1 := max_eq_left (by norm_num)
  have hE1 : Real.exp (-((1:ℝ) / 1000000)) < 1 :=
    Real.exp_lt_one_iff.mpr (by norm_num)
  have hE0 : 1 - (1:ℝ) / 1000000 ≤ Real.exp (-((1:ℝ) / 1000000)) := by
    have := Real.add_one_le_exp (-((1:ℝ) / 1000000))
    linarith
  have hEpos : 0 < Real.exp (-((1:ℝ) / 1000000)) := Real.exp_pos _
  have hiter1 : FuelMoistureIntegration.moistureIter 5.165 1 1000000 20 1 =
      5.165 + 14.835 * Real.exp (-((1:ℝ) / 1000000)) := by
    show max 0 (5.165 + (20 - 5.165) * Real.exp (-((1:ℝ) / 1000000))) = _
    rw [max_eq_right (by nlinarith)]
    norm_num
  have hiter2 : FuelMoistureIntegration.moistureIter 5.165 1 1000000 20 2 =
      5.165 + 14.835 * Real.exp (-((1:ℝ) / 1000000)) *
        Real.exp (-((1:ℝ) / 1000000)) := by
    show max 0 (5.165 + (FuelMoistureIntegration.moistureIter 5.165 1 1000000
      20 1 - 5.165) * Real.exp (-((1:ℝ) / 1000000))) = _
    rw [hiter1]
    rw [max_eq_right (by nlinarith)]
    ring
  have hEE : 1 - 2 * ((1:ℝ) / 1000000) ≤
      Real.exp (-((1:ℝ) / 1000000)) * Real.exp (-((1:ℝ) / 1000000)) := by
    nlinarith [sq_nonneg (Real.exp (-((1:ℝ) / 1000000)) - 1)]
  have hr1 : round1 (FuelMoistureIntegration.moistureIter 5.165 1 1000000 20 1)
      = 20 := by
    rw [hiter1]
    apply round1_eq_twenty <;> nlinarith
  have hr2 : round1 (FuelMoistureIntegration.moistureIter 5.165 1 1000000 20 2)
      = 20 := by
    rw [hiter2]
    apply round1_eq_twenty <;> nlinarith
  refine ⟨computeEMC_85_25, by norm_num, ?_⟩
  unfold FuelMoistureIntegration.calculateDryingPattern
  simp only [computeEMC_85_25, hIH]
  have hcount : (⌊(2:ℝ) / 1⌋).toNat = 2 := by
    rw [show ((2:ℝ) / 1) = ((2:ℤ) : ℝ) by norm_num, Int.floor_intCast]
    rfl
  rw [hcount, show List.range 2 = [0, 1] from rfl]
  refine ⟨_, rfl, ?_⟩
  simp only [List.map_cons, List.map_nil]
  rw [show ((0:ℕ) + 1) = 1 from rfl, show ((1:ℕ) + 1) = 2 from rfl, hr1, hr2]

end FireWeather
